import Mathlib

/-!
A shallow embedding of the `MemoryMap<char_type>` class of `MemoryMap.hxx`.

`MemoryMap.hxx` wraps the memory-mapping facilities of the host OS. The class
has two bodies selected by conditional compilation: a POSIX body
(`shm_open`, `::open`, `fstat`, `ftruncate`, `mmap`, `munmap`, `::close`,
`shm_unlink`) and a Windows body (`CreateFileMapping`, `OpenFileMapping`,
`CreateFile`, `SetFilePointer`, `SetEndOfFile`, `GetFileSize`,
`MapViewOfFile`, `UnmapViewOfFile`, `CloseHandle`).

Every member function is embedded as a pure function on the object's fields
and on a `World`: the answers the operating system is going to give (one per
call, in the order the calls are issued) together with the trace of the calls
issued so far. Quantifying over the `World` quantifies over every outcome of
the OS calls.

Conventions.
* `int` values (descriptors, return codes) are `Int`; `DWORD`/`BOOL` results
  are read from the same `Int` field.
* Pointers and Windows handles are addresses in `Nat`; `nullptr` is `0`,
  `MAP_FAILED` and `INVALID_HANDLE_VALUE` are the all-ones word `2^64 - 1`.
* `std::size_t pSize` and the lengths the OS reports (`st_size`, a file size)
  are `Nat`. A length reported by the OS is non-negative and below `2^63`, so the
  conversions between `off_t` and `std::size_t` in the source are the
  identity on every value that occurs and are not written out. Where the
  source narrows a value to 32 bits (the `DWORD` arguments on Windows) the
  reduction is explicit.
-/

namespace MemoryMap

/-! ## The operating system -/

/-- One call into the operating system, with the arguments the source passes. -/
inductive Call where
  | shm_open (name : String) (oflag : Nat) (mode : Nat)
  | sys_open (path : String) (oflag : Nat) (mode : Nat)
  | fstat (fd : Int)
  | ftruncate (fd : Int) (length : Nat)
  | mmap (addr : Nat) (length : Nat) (prot : Nat) (flags : Nat) (fd : Int) (offset : Nat)
  | munmap (addr : Nat) (length : Nat)
  | sys_close (fd : Int)
  | shm_unlink (name : String)
  | CreateFileMapping (hFile : Nat) (flProtect : Nat) (sizeHigh : Nat) (sizeLow : Nat)
      (name : String)
  | OpenFileMapping (access : Nat) (inherit : Bool) (name : String)
  | CreateFile (name : String) (access : Nat) (share : Nat) (creation : Nat) (attributes : Nat)
  | SetFilePointer (h : Nat) (low : Nat) (high : Nat) (method : Nat)
  | SetEndOfFile (h : Nat)
  | GetFileSize (h : Nat)
  | MapViewOfFile (hMap : Nat) (access : Nat) (offsetHigh : Nat) (offsetLow : Nat) (bytes : Nat)
  | UnmapViewOfFile (addr : Nat)
  | CloseHandle (h : Nat)
  deriving DecidableEq, Repr

/-- What the operating system answers to one call.
`ret` is the integer result (`int`, `BOOL` or `DWORD`), `ptr` the pointer or
handle result (`mmap`, `MapViewOfFile`, `CreateFile`, `CreateFileMapping`,
`OpenFileMapping`), `size` the out-parameter (`st_size` of `fstat`, the high
word of `GetFileSize`). A call reads only the fields of its own result type. -/
structure Reply where
  ret : Int
  ptr : Nat
  size : Nat
  deriving DecidableEq, Repr

/-- The environment of a member function: `replies k` is the answer to the
`k`-th OS call issued from now on, `trace` the calls issued so far, oldest
first. -/
structure World where
  replies : Nat → Reply
  trace : List Call

/-- Issue one OS call: take the next answer and record the call. -/
def World.call (w : World) (c : Call) : Reply × World :=
  (w.replies 0, { replies := fun k => w.replies (k + 1), trace := w.trace ++ [c] })

/-- A member function returning `bool`: the value returned, the object's
fields afterwards, and the environment afterwards. -/
structure Outcome (σ : Type) where
  result : Bool
  self : σ
  world : World

/-! ## Constants of the system headers -/

/-- The `std::ios::in` bit (libstdc++ value). -/
def ios_in : Nat := 8
/-- The `std::ios::out` bit (libstdc++ value). The source only ever tests
whether this bit of `mode` is set, so the value chosen for it does not matter. -/
def ios_out : Nat := 16

/-- The test `!(mode & std::ios::out)` that opens `open`, `open_file` and `map`. -/
def read_only (mode : Nat) : Bool := !(mode &&& ios_out != 0)

/-- The null pointer. -/
def nullptr : Nat := 0

def O_RDONLY : Nat := 0
def O_RDWR : Nat := 2
def O_CREAT : Nat := 64
def O_TRUNC : Nat := 512
def S_IRWXU : Nat := 448
def PROT_READ : Nat := 1
def PROT_WRITE : Nat := 2
def MAP_SHARED : Nat := 1
/-- The value `(void*)-1` that `mmap` returns on failure. -/
def MAP_FAILED : Nat := 2 ^ 64 - 1

def CREATE_ALWAYS : Nat := 2
def OPEN_EXISTING : Nat := 3
def PAGE_READONLY : Nat := 2
def PAGE_READWRITE : Nat := 4
def FILE_MAP_ALL_ACCESS : Nat := 0xF001F
def FILE_MAP_READ : Nat := 4
def FILE_MAP_WRITE : Nat := 2
def GENERIC_READ : Nat := 0x80000000
def GENERIC_WRITE : Nat := 0x40000000
def FILE_SHARE_READ : Nat := 1
def FILE_SHARE_WRITE : Nat := 2
def FILE_ATTRIBUTE_READONLY : Nat := 1
def FILE_ATTRIBUTE_TEMPORARY : Nat := 0x100
def FILE_BEGIN : Nat := 0
def INVALID_SET_FILE_POINTER : Nat := 0xFFFFFFFF
def INVALID_FILE_SIZE : Nat := 0xFFFFFFFF
/-- The value `(HANDLE)-1`. -/
def INVALID_HANDLE_VALUE : Nat := 2 ^ 64 - 1

/-- A `DWORD` result read from the integer field of a reply: its low 32 bits. -/
def DWORD (x : Int) : Nat := (x % 2 ^ 32).toNat

/-- A `BOOL` result read from the integer field of a reply: nonzero is true. -/
def BOOL (x : Int) : Bool := x != 0

/-! ## The POSIX body -/

namespace Posix

/-- The data members of `MemoryMap<char_type>` in the POSIX body. -/
structure MemoryMap where
  hFile : Int
  physical : Bool
  path : String
  pData : Nat
  pSize : Nat
  mode : Nat
  deriving DecidableEq, Repr

/-- The constructor `MemoryMap(path, mode)`. -/
def MemoryMap.create (path : String) (mode : Nat) : MemoryMap :=
  { hFile := 0, physical := false, path := path, pData := nullptr, pSize := 0, mode := mode }

/-- The constructor `MemoryMap(path, size, mode)`. -/
def MemoryMap.create_sized (path : String) (size : Nat) (mode : Nat) : MemoryMap :=
  { hFile := 0, physical := false, path := path, pData := nullptr, pSize := size, mode := mode }

/-- The member `open()`, POSIX branch (lines 94-115). -/
def «open» (self : MemoryMap) (w : World) : Outcome MemoryMap :=
  let read_only := read_only self.mode
  let dwFlags := if read_only then O_RDONLY else O_RDWR
  let dwFlags := dwFlags ||| (if !read_only && decide (self.pSize > 0) then O_CREAT ||| O_TRUNC else 0)
  let r := w.call (Call.shm_open self.path dwFlags S_IRWXU)
  let self : MemoryMap := { self with hFile := r.1.ret }
  let w := r.2
  if self.hFile != -1 then
    let q :=
      if self.pSize ≤ 0 then
        let r := w.call (Call.fstat self.hFile)
        if r.1.ret != -1 then ({ self with pSize := r.1.size }, r.2) else (self, r.2)
      else (self, w)
    let self := q.1
    let w := q.2
    if !read_only && decide (self.pSize > 0) then
      let r := w.call (Call.ftruncate self.hFile self.pSize)
      let w := r.2
      if r.1.ret != -1 then
        let r := w.call (Call.fstat self.hFile)
        ⟨if r.1.ret != -1 then self.pSize == r.1.size else false, self, r.2⟩
      else ⟨false, self, w⟩
    else ⟨false, self, w⟩
  else ⟨false, self, w⟩

/-- The member `open_file()`, POSIX branch (lines 147-168). -/
def open_file (self : MemoryMap) (w : World) : Outcome MemoryMap :=
  let read_only := read_only self.mode
  let self : MemoryMap := { self with physical := true }
  let dwFlags := if read_only then O_RDONLY else O_RDWR
  let dwFlags := dwFlags ||| (if !read_only && decide (self.pSize > 0) then O_CREAT ||| O_TRUNC else 0)
  let r := w.call (Call.sys_open self.path dwFlags S_IRWXU)
  let self : MemoryMap := { self with hFile := r.1.ret }
  let w := r.2
  if self.hFile != -1 then
    let t :=
      if !read_only && decide (self.pSize > 0) then
        let r := w.call (Call.ftruncate self.hFile self.pSize)
        (r.1.ret != -1, r.2)
      else (false, w)
    let w := t.2
    if t.1 then
      let r := w.call (Call.fstat self.hFile)
      ⟨if r.1.ret != -1 then self.pSize == r.1.size else false, self, r.2⟩
    else
      let self : MemoryMap := { self with pSize := 0 }
      let r := w.call (Call.fstat self.hFile)
      if r.1.ret != -1 then
        ⟨true, { self with pSize := r.1.size }, r.2⟩
      else ⟨false, self, r.2⟩
  else ⟨false, self, w⟩

/-- The member `map()`, POSIX branch (lines 180-182). -/
def map (self : MemoryMap) (w : World) : Outcome MemoryMap :=
  let read_only := read_only self.mode
  let dwAccess := if read_only then PROT_READ else (PROT_READ ||| PROT_WRITE)
  let r := w.call (Call.mmap nullptr self.pSize dwAccess MAP_SHARED self.hFile 0)
  let self : MemoryMap := { self with pData := r.1.ptr }
  ⟨self.pData != MAP_FAILED, self, r.2⟩

/-- The member `unmap()`, POSIX branch (lines 195-196). -/
def unmap (self : MemoryMap) (w : World) : Outcome MemoryMap :=
  let r := w.call (Call.munmap self.pData self.pSize)
  let result := r.1.ret == 0
  let self : MemoryMap := { self with pData := nullptr }
  ⟨result, self, r.2⟩

/-- The member `close()`, POSIX branch (lines 204, 209-212). The left operand
of `&&` holds the OS call, so the call is issued whatever `unmap()` returned. -/
def close (self : MemoryMap) (w : World) : Outcome MemoryMap :=
  let u := unmap self w
  let result := u.result
  let self := u.self
  let w := u.world
  let r :=
    if self.physical then
      let r := w.call (Call.sys_close self.hFile)
      (r.1.ret != -1, r.2)
    else
      let r := w.call (Call.shm_unlink self.path)
      (r.1.ret == 0, r.2)
  let result := r.1 && result
  let self : MemoryMap := { self with physical := false }
  ⟨result, self, r.2⟩

/-- The member `is_open()`, POSIX branch: `return hFile != nullptr;`, the
descriptor compared with the null pointer constant, which is zero. -/
def is_open (self : MemoryMap) : Bool := self.hFile != 0

/-- The member `is_mapped()`: `return pData;`. -/
def is_mapped (self : MemoryMap) : Bool := self.pData != nullptr

/-- The member `size()`. -/
def size (self : MemoryMap) : Nat := self.pSize

/-- The member `data()`. -/
def data (self : MemoryMap) : Nat := self.pData

end Posix

/-! ## The Windows body -/

namespace Windows

/-- The data members of `MemoryMap<char_type>` in the Windows body. -/
structure MemoryMap where
  hFile : Nat
  hMap : Nat
  path : String
  pData : Nat
  pSize : Nat
  mode : Nat
  deriving DecidableEq, Repr

/-- The constructor `MemoryMap(path, mode)`. -/
def MemoryMap.create (path : String) (mode : Nat) : MemoryMap :=
  { hFile := INVALID_HANDLE_VALUE, hMap := nullptr, path := path, pData := nullptr, pSize := 0,
    mode := mode }

/-- The constructor `MemoryMap(path, size, mode)`. -/
def MemoryMap.create_sized (path : String) (size : Nat) (mode : Nat) : MemoryMap :=
  { hFile := INVALID_HANDLE_VALUE, hMap := nullptr, path := path, pData := nullptr, pSize := size,
    mode := mode }

/-- The member `open()`, Windows branch (lines 82-92). The size argument of
`CreateFileMapping` is a `DWORD`. -/
def «open» (self : MemoryMap) (w : World) : Outcome MemoryMap :=
  let read_only := read_only self.mode
  let dwCreation := if !read_only && decide (self.pSize > 0) then CREATE_ALWAYS else OPEN_EXISTING
  let dwAccess := if read_only then PAGE_READONLY else PAGE_READWRITE
  if dwCreation == CREATE_ALWAYS then
    let r := w.call (Call.CreateFileMapping self.hFile dwAccess 0 (self.pSize % 2 ^ 32) self.path)
    let self : MemoryMap := { self with hMap := r.1.ptr }
    ⟨self.hMap != nullptr, self, r.2⟩
  else
    let r := w.call (Call.OpenFileMapping FILE_MAP_ALL_ACCESS false self.path)
    let self : MemoryMap := { self with hMap := r.1.ptr }
    ⟨self.hMap != nullptr, self, r.2⟩

/-- The member `open_file()`, Windows branch (lines 123-145). `long` has 32
bits there, so `sizeof(long) << 3` is 32 and `high`, `low` are the two 32-bit
halves of `pSize`. -/
def open_file (self : MemoryMap) (w : World) : Outcome MemoryMap :=
  let read_only := read_only self.mode
  let dwAccess := if read_only then GENERIC_READ else (GENERIC_READ ||| GENERIC_WRITE)
  let dwCreation := if !read_only && decide (self.pSize > 0) then CREATE_ALWAYS else OPEN_EXISTING
  let dwAttributes := if read_only then FILE_ATTRIBUTE_READONLY else FILE_ATTRIBUTE_TEMPORARY
  let r := w.call (Call.CreateFile self.path dwAccess (FILE_SHARE_READ ||| FILE_SHARE_WRITE)
    dwCreation dwAttributes)
  let self : MemoryMap := { self with hFile := r.1.ptr }
  let w := r.2
  if self.hFile != INVALID_HANDLE_VALUE then
    let high := (self.pSize >>> 32) % 2 ^ 32
    let low := self.pSize &&& 0xFFFFFFFF
    let r := w.call (Call.SetFilePointer self.hFile low high FILE_BEGIN)
    let w := r.2
    if DWORD r.1.ret != INVALID_SET_FILE_POINTER then
      let t :=
        if !read_only then
          let r := w.call (Call.SetEndOfFile self.hFile)
          (BOOL r.1.ret, r.2)
        else (false, w)
      let w := t.2
      if t.1 then
        let r := w.call (Call.GetFileSize self.hFile)
        let low := DWORD r.1.ret
        let high := r.1.size % 2 ^ 32
        ⟨low != INVALID_FILE_SIZE && ((high <<< 32) ||| low) == self.pSize, self, r.2⟩
      else
        let r := w.call (Call.GetFileSize self.hFile)
        let low := DWORD r.1.ret
        let high := r.1.size % 2 ^ 32
        let self : MemoryMap :=
          { self with pSize := if low != INVALID_FILE_SIZE then (high <<< 32) ||| low else 0 }
        ⟨low != INVALID_FILE_SIZE, self, r.2⟩
    else ⟨false, self, w⟩
  else ⟨false, self, w⟩

/-- The member `map()`, Windows branch (lines 176-178). -/
def map (self : MemoryMap) (w : World) : Outcome MemoryMap :=
  let read_only := read_only self.mode
  let dwAccess := if read_only then FILE_MAP_READ else FILE_MAP_WRITE
  let r := w.call (Call.MapViewOfFile self.hMap dwAccess 0 0 self.pSize)
  let self : MemoryMap := { self with pData := r.1.ptr }
  ⟨self.pData != nullptr, self, r.2⟩

/-- The member `unmap()`, Windows branch (lines 189-193, 198). Each OS call
is the left operand of its `&&`, so both are always issued. -/
def unmap (self : MemoryMap) (w : World) : Outcome MemoryMap :=
  let result := true
  let r := w.call (Call.UnmapViewOfFile self.pData)
  let result := BOOL r.1.ret && result
  let w := r.2
  let r := w.call (Call.CloseHandle self.hMap)
  let result := BOOL r.1.ret && result
  let self : MemoryMap := { self with hMap := nullptr, pData := nullptr }
  ⟨result, self, r.2⟩

/-- The member `close()`, Windows branch (lines 204, 206-207, 212). -/
def close (self : MemoryMap) (w : World) : Outcome MemoryMap :=
  let u := unmap self w
  let result := u.result
  let self := u.self
  let w := u.world
  let r := w.call (Call.CloseHandle self.hFile)
  let result := BOOL r.1.ret && result
  let self : MemoryMap := { self with hFile := INVALID_HANDLE_VALUE }
  ⟨result, self, r.2⟩

/-- The member `is_open()`, Windows branch. -/
def is_open (self : MemoryMap) : Bool :=
  self.hMap != nullptr || self.hFile != INVALID_HANDLE_VALUE

/-- The member `is_mapped()`: `return pData;`. -/
def is_mapped (self : MemoryMap) : Bool := self.pData != nullptr

/-- The member `size()`. -/
def size (self : MemoryMap) : Nat := self.pSize

/-- The member `data()`. -/
def data (self : MemoryMap) : Nat := self.pData

end Windows

/-! ## Observations on a trace -/

/-- The lengths that the set-length requests of a trace ask for, oldest
first, given the position `pos` of the file pointer before the trace.
`ftruncate(fd, n)` asks for `n`; `SetEndOfFile` asks for the position of the
file pointer, which the last `SetFilePointer(low, high, FILE_BEGIN)` put at
`high * 2^32 + low`. -/
def setLengthRequests (pos : Nat) : List Call → List Nat
  | [] => []
  | Call.ftruncate _ n :: cs => n :: setLengthRequests pos cs
  | Call.SetFilePointer _ low high _ :: cs => setLengthRequests (high * 2 ^ 32 + low) cs
  | Call.SetEndOfFile _ :: cs => pos :: setLengthRequests pos cs
  | _ :: cs => setLengthRequests pos cs

/-- The calls issued between the environment `w` and the later environment `w1`. -/
def World.since (w1 w : World) : List Call := w1.trace.drop w.trace.length

/-- An environment with an empty trace whose answers are the listed ones, then `d` forever. -/
def World.script (rs : List Reply) (d : Reply) : World :=
  { replies := fun k => rs.getD k d, trace := [] }

/-- The answer of a call returning an integer. -/
def Reply.int (x : Int) : Reply := { ret := x, ptr := 0, size := 0 }

/-- The answer of a call returning a pointer or handle. -/
def Reply.pointer (p : Nat) : Reply := { ret := 0, ptr := p, size := 0 }

/-- The answer of `fstat` (result and `st_size`) or `GetFileSize` (low and high word). -/
def Reply.sized (x : Int) (n : Nat) : Reply := { ret := x, ptr := 0, size := n }

/-! ## Concrete objects and environments used below -/

/-- Read and write access, the default `mode` of both constructors. -/
def rw : Nat := ios_in ||| ios_out

/-- A segment of 64 bytes opened for writing. -/
def seg64 : Posix.MemoryMap := Posix.MemoryMap.create_sized "/seg" 64 rw

/-- An OS that opens descriptor 3, truncates, and reports 64 bytes. -/
def os_create_ok : World :=
  World.script [Reply.int 3, Reply.int 0, Reply.sized 0 64] (Reply.int (-1))

/-- A file of 8 bytes opened for writing. -/
def file8 : Posix.MemoryMap := Posix.MemoryMap.create_sized "f.bin" 8 rw

/-- An OS that opens descriptor 3, refuses the truncation, and then reports
the length 0 that `O_TRUNC` left. -/
def os_truncate_refused : World :=
  World.script [Reply.int 3, Reply.int (-1), Reply.sized 0 0] (Reply.int (-1))

/-- A read-only Mapping with no size given. -/
def reader : Posix.MemoryMap := Posix.MemoryMap.create "/seg" ios_in

/-- An OS that opens descriptor 3 and reports 64 bytes. -/
def os_existing64 : World :=
  World.script [Reply.int 3, Reply.sized 0 64] (Reply.int (-1))

/-- An OS on which every call fails with -1 (and a null pointer). -/
def os_all_fail : World := World.script [] (Reply.int (-1))

/-- A Windows Mapping with write access and no size given. -/
def win_adopter : Windows.MemoryMap := Windows.MemoryMap.create "f.bin" rw

/-- A Windows OS on which every call succeeds: `CreateFile` returns the
handle 100, `SetFilePointer` the new position 0, `SetEndOfFile` TRUE, and
`GetFileSize` then reports the length 0. -/
def os_win_ok : World :=
  World.script [Reply.pointer 100, Reply.int 0, Reply.int 1, Reply.sized 0 0] (Reply.int 0)

/-- An OS that creates the 64-byte segment on descriptor 3 and then refuses
to map it. -/
def os_create_map_fails : World :=
  World.script [Reply.int 3, Reply.int 0, Reply.sized 0 64, Reply.pointer MAP_FAILED]
    (Reply.int (-1))

/-- An OS that creates the 64-byte segment on descriptor 3 and then answers 0
(success) to `munmap` and `shm_unlink`. -/
def os_create_release : World :=
  World.script [Reply.int 3, Reply.int 0, Reply.sized 0 64] (Reply.int 0)

/-- A Windows mapping object of 64 bytes opened for writing. -/
def win_creator : Windows.MemoryMap := Windows.MemoryMap.create_sized "seg" 64 rw

/-- A Windows OS that creates the mapping object with handle 100 and then
answers FALSE to every call. -/
def os_win_create_then_fail : World := World.script [Reply.pointer 100] (Reply.int 0)

/-- An OS that opens descriptor 3 and fails every later call. -/
def os_open_only : World := World.script [Reply.int 3] (Reply.int (-1))

/-! ## Theorems -/

/-! ### General facts about the POSIX body -/

/-- POSIX `open()` in read-only mode returns false for every outcome of the
OS calls: its only `return` that can yield true is guarded by `!read_only`. -/
theorem posix_open_read_only_result (self : Posix.MemoryMap) (w : World)
    (hmode : read_only self.mode = true) : (Posix.open self w).result = false := by
  by_cases h0 : (w.replies 0).ret = -1 <;>
  by_cases hz : self.pSize = 0 <;>
  by_cases h1 : (w.replies 1).ret = -1 <;>
  simp [Posix.open, World.call, hmode, h0, hz, h1, Nat.pos_iff_ne_zero]

/-- POSIX `open_file()` with write access and a positive size: when `::open`
succeeds, `ftruncate` fails and `fstat` succeeds, the call returns true and
`size()` is the length `fstat` reports. -/
theorem posix_open_file_truncate_failure_adopts (self : Posix.MemoryMap) (w : World)
    (hmode : read_only self.mode = false) (hN : 0 < self.pSize)
    (h0 : (w.replies 0).ret ≠ -1) (h1 : (w.replies 1).ret = -1) (h2 : (w.replies 2).ret ≠ -1) :
    (Posix.open_file self w).result = true ∧
    Posix.size (Posix.open_file self w).self = (w.replies 2).size := by
  simp [Posix.open_file, World.call, Posix.size, hmode, hN, h0, h1, h2]

/-- POSIX `open()` and `open_file()` store a failed OS open in `hFile`, and
`is_open()` then returns true. -/
theorem posix_failed_open_is_open (self : Posix.MemoryMap) (w : World)
    (h0 : (w.replies 0).ret = -1) :
    (Posix.open self w).result = false ∧ Posix.is_open (Posix.open self w).self = true ∧
    (Posix.open_file self w).result = false ∧
    Posix.is_open (Posix.open_file self w).self = true := by
  simp [Posix.open, Posix.open_file, World.call, Posix.is_open, h0]

/-- POSIX `map()` returns false exactly when it has stored `MAP_FAILED` in
`pData`, and then `is_mapped()` returns true. -/
theorem posix_map_failure_is_mapped (self : Posix.MemoryMap) (w : World)
    (hfail : (Posix.map self w).result = false) :
    Posix.data (Posix.map self w).self = MAP_FAILED ∧
    Posix.is_mapped (Posix.map self w).self = true := by
  have h : (w.replies 0).ptr = MAP_FAILED := by
    simpa [Posix.map, World.call] using hfail
  simp [Posix.map, World.call, Posix.data, Posix.is_mapped, h, MAP_FAILED, nullptr]

/-- POSIX `close()` never changes `hFile`, so `is_open()` returns after
`close()` what it returned before. -/
theorem posix_close_keeps_hFile (self : Posix.MemoryMap) (w : World) :
    (Posix.close self w).self.hFile = self.hFile ∧
    Posix.is_open (Posix.close self w).self = Posix.is_open self := by
  simp [Posix.close, Posix.unmap, Posix.is_open]

/-- Windows `open_file()` with write access issues `SetEndOfFile` whenever
`CreateFile` and `SetFilePointer` succeed, also when `pSize` is 0. -/
theorem windows_open_file_write_sets_end (self : Windows.MemoryMap) (w : World)
    (hmode : read_only self.mode = false)
    (h0 : (w.replies 0).ptr ≠ INVALID_HANDLE_VALUE)
    (h1 : DWORD (w.replies 1).ret ≠ INVALID_SET_FILE_POINTER) :
    Call.SetEndOfFile (w.replies 0).ptr ∈ (Windows.open_file self w).world.since w := by
  by_cases h2 : BOOL (w.replies 2).ret = true <;>
  simp [Windows.open_file, World.call, World.since, hmode, h0, h1, h2]

/-! ### The claims -/

/-- C1: POSIX `open()` on a Mapping with write access and `pSize = N > 0`,
for every outcome of the OS calls. The calls issued are `shm_open` with
`O_RDWR | O_CREAT | O_TRUNC`, then (if it did not return -1)
`ftruncate(fd, N)`, then (if that did not return -1) `fstat(fd)`; `open()`
returns true exactly when all three succeed and `fstat` reports `st_size = N`;
and whenever it returns true, `size()` is `N`. -/
theorem posix_open_create_exact (self : Posix.MemoryMap) (w : World)
    (hmode : read_only self.mode = false) (hN : 0 < self.pSize) :
    (Posix.open self w).world.trace = w.trace ++
        (Call.shm_open self.path (O_RDWR ||| (O_CREAT ||| O_TRUNC)) S_IRWXU ::
          if (w.replies 0).ret ≠ -1 then
            Call.ftruncate (w.replies 0).ret self.pSize ::
              if (w.replies 1).ret ≠ -1 then [Call.fstat (w.replies 0).ret] else []
          else []) ∧
    ((Posix.open self w).result = true ↔
        (w.replies 0).ret ≠ -1 ∧ (w.replies 1).ret ≠ -1 ∧
        (w.replies 2).ret ≠ -1 ∧ (w.replies 2).size = self.pSize) ∧
    ((Posix.open self w).result = true → Posix.size (Posix.open self w).self = self.pSize) := by
  have hpos : ¬ self.pSize ≤ 0 := Nat.not_le.mpr hN
  have hne : self.pSize ≠ 0 := Nat.pos_iff_ne_zero.mp hN
  by_cases h0 : (w.replies 0).ret = -1
  · simp [Posix.open, World.call, hmode, hN, h0]
  · by_cases h1 : (w.replies 1).ret = -1
    · simp [Posix.open, World.call, hmode, hN, hne, h0, h1]
    · by_cases h2 : (w.replies 2).ret = -1
      · simp [Posix.open, World.call, hmode, hN, hne, h0, h1, h2, Posix.size]
      · simp [Posix.open, World.call, hmode, hN, hne, h0, h1, h2, Posix.size]
        exact eq_comm

/-- C1, at a concrete input: a 64-byte segment opened for writing on an OS
where every call succeeds. -/
theorem posix_open_create_exact_witness :
    read_only seg64.mode = false ∧ 0 < seg64.pSize ∧
    (Posix.open seg64 os_create_ok).result = true ∧
    Posix.size (Posix.open seg64 os_create_ok).self = 64 :=
  have h := posix_open_create_exact seg64 os_create_ok (by decide) (by decide)
  ⟨by decide, by decide, h.2.1.mpr (by decide), h.2.2 (h.2.1.mpr (by decide))⟩

/-- C2, the code at the failing input: POSIX `open_file()` with write access
and `pSize = 8`, `::open` returns 3, `ftruncate(3, 8)` fails, `fstat(3)`
succeeds and reports length 0. The call falls through to the branch that
adopts the existing length: it returns true and `size()` is 0, not 8. -/
theorem posix_open_file_truncate_failure_accepted :
    read_only file8.mode = false ∧ file8.pSize = 8 ∧
    (Posix.open_file file8 os_truncate_refused).world.trace =
      [Call.sys_open "f.bin" (O_RDWR ||| (O_CREAT ||| O_TRUNC)) S_IRWXU,
       Call.ftruncate 3 8, Call.fstat 3] ∧
    (Posix.open_file file8 os_truncate_refused).result = true ∧
    Posix.size (Posix.open_file file8 os_truncate_refused).self = 0 := by
  decide

/-- C3, the code at the failing input: POSIX `open()` in read-only mode with
`pSize = 0`, `shm_open` returns 3 and `fstat(3)` reports 64 bytes. `size()`
becomes 64 but `open()` returns false. -/
theorem posix_open_read_only_returns_false :
    read_only reader.mode = true ∧ reader.pSize = 0 ∧
    (Posix.open reader os_existing64).world.trace =
      [Call.shm_open "/seg" O_RDONLY S_IRWXU, Call.fstat 3] ∧
    (Posix.open reader os_existing64).result = false ∧
    Posix.size (Posix.open reader os_existing64).self = 64 := by
  decide

/-- C4, the code at the failing input: a freshly constructed read-only POSIX
Mapping is closed (`is_open()` false); the OS open call fails with -1. Both
`open()` and `open_file()` return false and leave `is_mapped()` false, but the
-1 is stored in `hFile` and `is_open()` now returns true. -/
theorem posix_failed_open_reports_open :
    Posix.is_open reader = false ∧
    (Posix.open reader os_all_fail).result = false ∧
    Posix.is_mapped (Posix.open reader os_all_fail).self = false ∧
    Posix.is_open (Posix.open reader os_all_fail).self = true ∧
    (Posix.open_file reader os_all_fail).result = false ∧
    Posix.is_mapped (Posix.open_file reader os_all_fail).self = false ∧
    Posix.is_open (Posix.open_file reader os_all_fail).self = true := by
  decide

/-- C5, the code at the failing input: Windows `open_file()` with write
access and `pSize = 0` on an existing file (of 5 bytes, say), every OS call
succeeding. The file is opened with `OPEN_EXISTING`, but then the file pointer
is put at offset 0 and `SetEndOfFile` is issued: the one set-length request
of the call asks for length 0, whatever the existing length was. The call
returns true with `size()` 0. -/
theorem windows_open_file_adopt_truncates :
    read_only win_adopter.mode = false ∧ win_adopter.pSize = 0 ∧
    (Windows.open_file win_adopter os_win_ok).world.trace =
      [Call.CreateFile "f.bin" (GENERIC_READ ||| GENERIC_WRITE)
         (FILE_SHARE_READ ||| FILE_SHARE_WRITE) OPEN_EXISTING FILE_ATTRIBUTE_TEMPORARY,
       Call.SetFilePointer 100 0 0 FILE_BEGIN, Call.SetEndOfFile 100, Call.GetFileSize 100] ∧
    setLengthRequests 0 (Windows.open_file win_adopter os_win_ok).world.trace = [0] ∧
    (Windows.open_file win_adopter os_win_ok).result = true ∧
    Windows.size (Windows.open_file win_adopter os_win_ok).self = 0 := by
  decide

/-- C6, the code at the failing input: a POSIX Mapping in state Open after a
successful `open()` (descriptor 3, 64 bytes, not mapped); `mmap` fails and
returns `MAP_FAILED`. `map()` returns false and keeps `hFile` and `size()`,
but it has stored `MAP_FAILED` in `pData`: `data()` is not null and
`is_mapped()` returns true. -/
theorem posix_failed_map_reports_mapped :
    (Posix.open seg64 os_create_map_fails).result = true ∧
    Posix.is_mapped (Posix.open seg64 os_create_map_fails).self = false ∧
    (Posix.map (Posix.open seg64 os_create_map_fails).self
      (Posix.open seg64 os_create_map_fails).world).result = false ∧
    Posix.is_mapped (Posix.map (Posix.open seg64 os_create_map_fails).self
      (Posix.open seg64 os_create_map_fails).world).self = true ∧
    Posix.data (Posix.map (Posix.open seg64 os_create_map_fails).self
      (Posix.open seg64 os_create_map_fails).world).self = MAP_FAILED ∧
    MAP_FAILED ≠ nullptr ∧
    (Posix.map (Posix.open seg64 os_create_map_fails).self
      (Posix.open seg64 os_create_map_fails).world).self.hFile = 3 ∧
    Posix.size (Posix.map (Posix.open seg64 os_create_map_fails).self
      (Posix.open seg64 os_create_map_fails).world).self = 64 := by
  decide

/-- C9, the code at the failing input: a POSIX Mapping in state Open after a
successful `open()` (descriptor 3); `munmap` and `shm_unlink` answer 0.
`close()` issues `munmap` and then `shm_unlink`, returns true and leaves
`is_mapped()` false, but `hFile` still holds 3 and `is_open()` returns true. -/
theorem posix_close_leaves_is_open :
    (Posix.open seg64 os_create_release).result = true ∧
    (Posix.close (Posix.open seg64 os_create_release).self
      (Posix.open seg64 os_create_release).world).world.since
        (Posix.open seg64 os_create_release).world =
      [Call.munmap 0 64, Call.shm_unlink "/seg"] ∧
    (Posix.close (Posix.open seg64 os_create_release).self
      (Posix.open seg64 os_create_release).world).result = true ∧
    Posix.is_mapped (Posix.close (Posix.open seg64 os_create_release).self
      (Posix.open seg64 os_create_release).world).self = false ∧
    (Posix.close (Posix.open seg64 os_create_release).self
      (Posix.open seg64 os_create_release).world).self.hFile = 3 ∧
    Posix.is_open (Posix.close (Posix.open seg64 os_create_release).self
      (Posix.open seg64 os_create_release).world).self = true := by
  decide

/-- C7, the claim as stated fails. A freshly constructed POSIX Mapping is not
mapped, yet `unmap()` issues `munmap(nullptr, 0)` and, the OS answering -1,
returns false. A Windows Mapping in state Open after `open()` (mapping handle
100) is not mapped, yet `unmap()` issues `UnmapViewOfFile(nullptr)` and
`CloseHandle(100)`, returns false, and changes the field `hMap` to null. -/
theorem unmap_not_mapped_counterexample :
    Posix.is_mapped reader = false ∧
    (Posix.unmap reader os_all_fail).world.trace = [Call.munmap 0 0] ∧
    (Posix.unmap reader os_all_fail).result = false ∧
    (Windows.open win_creator os_win_create_then_fail).result = true ∧
    (Windows.open win_creator os_win_create_then_fail).self.hMap = 100 ∧
    Windows.is_mapped (Windows.open win_creator os_win_create_then_fail).self = false ∧
    (Windows.unmap (Windows.open win_creator os_win_create_then_fail).self
      (Windows.open win_creator os_win_create_then_fail).world).world.since
        (Windows.open win_creator os_win_create_then_fail).world =
      [Call.UnmapViewOfFile 0, Call.CloseHandle 100] ∧
    (Windows.unmap (Windows.open win_creator os_win_create_then_fail).self
      (Windows.open win_creator os_win_create_then_fail).world).result = false ∧
    (Windows.unmap (Windows.open win_creator os_win_create_then_fail).self
      (Windows.open win_creator os_win_create_then_fail).world).self.hMap = 0 := by
  decide

/-- C7, amended: on a Mapping that is not mapped, `unmap()` always issues the
OS release calls with the null view pointer (`munmap(nullptr, size)` on
POSIX; `UnmapViewOfFile(nullptr)` then `CloseHandle(hMap)` on Windows) and
returns true exactly when the OS answers success to each. On POSIX every field
is unchanged; on Windows every field but `hMap` is unchanged and `hMap`
becomes null. On both, the Mapping is again not mapped and a second `unmap()`
leaves every field unchanged. -/
theorem unmap_not_mapped_calls_os (p : Posix.MemoryMap) (q : Windows.MemoryMap) (w w2 : World)
    (hp : Posix.is_mapped p = false) (hq : Windows.is_mapped q = false) :
    ((Posix.unmap p w).world.trace = w.trace ++ [Call.munmap nullptr p.pSize] ∧
     ((Posix.unmap p w).result = true ↔ (w.replies 0).ret = 0) ∧
     (Posix.unmap p w).self = p ∧
     Posix.is_mapped (Posix.unmap p w).self = false ∧
     (Posix.unmap (Posix.unmap p w).self w2).self = (Posix.unmap p w).self) ∧
    ((Windows.unmap q w).world.trace =
        w.trace ++ [Call.UnmapViewOfFile nullptr, Call.CloseHandle q.hMap] ∧
     ((Windows.unmap q w).result = true ↔ (w.replies 0).ret ≠ 0 ∧ (w.replies 1).ret ≠ 0) ∧
     (Windows.unmap q w).self = { q with hMap := nullptr } ∧
     Windows.is_mapped (Windows.unmap q w).self = false ∧
     (Windows.unmap (Windows.unmap q w).self w2).self = (Windows.unmap q w).self) := by
  have hp0 : p.pData = nullptr := by simpa [Posix.is_mapped] using hp
  have hq0 : q.pData = nullptr := by simpa [Windows.is_mapped] using hq
  refine ⟨⟨?_, ?_, ?_, ?_, ?_⟩, ⟨?_, ?_, ?_, ?_, ?_⟩⟩
  · simp [Posix.unmap, World.call, hp0]
  · simp [Posix.unmap, World.call]
  · cases p; simp_all [Posix.unmap, World.call]
  · simp [Posix.unmap, Posix.is_mapped]
  · simp [Posix.unmap]
  · simp [Windows.unmap, World.call, hq0]
  · simp [Windows.unmap, World.call, BOOL, and_comm]
  · cases q; simp_all [Windows.unmap, World.call]
  · simp [Windows.unmap, Windows.is_mapped]
  · simp [Windows.unmap]

/-- C7 amended, at a concrete input: a fresh POSIX Mapping and a fresh
Windows Mapping, on an OS that rejects every call. -/
theorem unmap_not_mapped_calls_os_witness :
    Posix.is_mapped reader = false ∧ Windows.is_mapped win_adopter = false ∧
    (Posix.unmap reader os_all_fail).self = reader ∧
    (Windows.unmap win_adopter os_win_ok).world.trace =
      [Call.UnmapViewOfFile nullptr, Call.CloseHandle nullptr] :=
  have h := unmap_not_mapped_calls_os reader win_adopter os_all_fail os_all_fail
    (by decide) (by decide)
  have h2 := unmap_not_mapped_calls_os reader win_adopter os_win_ok os_all_fail
    (by decide) (by decide)
  ⟨by decide, by decide, h.1.2.2.1, h2.2.1⟩

/-- C8, the claim as stated fails. `close()` on a never-opened POSIX Mapping
issues `munmap(nullptr, 0)` and then `shm_unlink` on the Mapping's name, and,
the OS answering -1, returns false. On a never-opened Windows Mapping it
issues `UnmapViewOfFile(nullptr)`, `CloseHandle(nullptr)` and
`CloseHandle(INVALID_HANDLE_VALUE)` and, the OS answering FALSE, returns
false. And `open()`, `close()`, `close()` on a POSIX segment, the OS answering
success throughout, asks for the unlink of the segment twice and never closes
descriptor 3. -/
theorem close_without_object_counterexample :
    (Posix.close reader os_all_fail).world.trace =
      [Call.munmap 0 0, Call.shm_unlink "/seg"] ∧
    (Posix.close reader os_all_fail).result = false ∧
    (Windows.close win_adopter (World.script [] (Reply.int 0))).world.trace =
      [Call.UnmapViewOfFile 0, Call.CloseHandle 0, Call.CloseHandle INVALID_HANDLE_VALUE] ∧
    (Windows.close win_adopter (World.script [] (Reply.int 0))).result = false ∧
    (Posix.open seg64 os_create_release).result = true ∧
    (Posix.close
      (Posix.close (Posix.open seg64 os_create_release).self
        (Posix.open seg64 os_create_release).world).self
      (Posix.close (Posix.open seg64 os_create_release).self
        (Posix.open seg64 os_create_release).world).world).world.trace =
      [Call.shm_open "/seg" (O_RDWR ||| (O_CREAT ||| O_TRUNC)) S_IRWXU,
       Call.ftruncate 3 64, Call.fstat 3,
       Call.munmap 0 64, Call.shm_unlink "/seg",
       Call.munmap 0 64, Call.shm_unlink "/seg"] := by
  decide

/-- C8, amended: on a Mapping that holds no backing object (just constructed,
or the result of an earlier `close()`), `close()` still calls the OS and
returns what the OS answers. On POSIX it issues `munmap(nullptr, size)` and
then `shm_unlink(path)` (never `::close`, since `physical` is false there)
and returns true exactly when both answer 0. On Windows it issues
`UnmapViewOfFile(nullptr)`, `CloseHandle(nullptr)` and
`CloseHandle(INVALID_HANDLE_VALUE)` and returns true exactly when all three
answer nonzero. On both it leaves every field unchanged. -/
theorem close_without_object_calls_os (p : Posix.MemoryMap) (q : Windows.MemoryMap) (w : World)
    (hp : (∃ path size mode, p = Posix.MemoryMap.create_sized path size mode) ∨
      (∃ p0 w0, p = (Posix.close p0 w0).self))
    (hq : (∃ path size mode, q = Windows.MemoryMap.create_sized path size mode) ∨
      (∃ q0 w0, q = (Windows.close q0 w0).self)) :
    ((Posix.close p w).world.trace =
        w.trace ++ [Call.munmap nullptr p.pSize, Call.shm_unlink p.path] ∧
     ((Posix.close p w).result = true ↔ (w.replies 0).ret = 0 ∧ (w.replies 1).ret = 0) ∧
     (Posix.close p w).self = p) ∧
    ((Windows.close q w).world.trace =
        w.trace ++ [Call.UnmapViewOfFile nullptr, Call.CloseHandle nullptr,
          Call.CloseHandle INVALID_HANDLE_VALUE] ∧
     ((Windows.close q w).result = true ↔
        (w.replies 0).ret ≠ 0 ∧ (w.replies 1).ret ≠ 0 ∧ (w.replies 2).ret ≠ 0) ∧
     (Windows.close q w).self = q) := by
  have hp2 : p.physical = false ∧ p.pData = nullptr := by
    rcases hp with ⟨_, _, _, rfl⟩ | ⟨_, _, rfl⟩
    · exact ⟨rfl, rfl⟩
    · constructor <;> simp [Posix.close, Posix.unmap]
  have hq2 : q.hFile = INVALID_HANDLE_VALUE ∧ q.hMap = nullptr ∧ q.pData = nullptr := by
    rcases hq with ⟨_, _, _, rfl⟩ | ⟨_, _, rfl⟩
    · exact ⟨rfl, rfl, rfl⟩
    · refine ⟨?_, ?_, ?_⟩ <;> simp [Windows.close, Windows.unmap]
  obtain ⟨hp3, hp4⟩ := hp2
  obtain ⟨hq3, hq4, hq5⟩ := hq2
  refine ⟨⟨?_, ?_, ?_⟩, ⟨?_, ?_, ?_⟩⟩
  · simp [Posix.close, Posix.unmap, World.call, hp3, hp4]
  · simp [Posix.close, Posix.unmap, World.call, hp3, and_comm]
  · cases p; simp_all [Posix.close, Posix.unmap, World.call]
  · simp [Windows.close, Windows.unmap, World.call, hq3, hq4, hq5]
  · simp [Windows.close, Windows.unmap, World.call, BOOL]
    tauto
  · cases q; simp_all [Windows.close, Windows.unmap, World.call]

/-- C8 amended, at a concrete input: a never-opened POSIX Mapping and a
never-opened Windows Mapping, on an OS that answers 0 to every call. -/
theorem close_without_object_calls_os_witness :
    (Posix.close reader os_create_release).self = reader ∧
    (Windows.close win_adopter os_create_release).world.trace =
      [Call.UnmapViewOfFile nullptr, Call.CloseHandle nullptr,
        Call.CloseHandle INVALID_HANDLE_VALUE] :=
  have h := close_without_object_calls_os reader win_adopter os_create_release
    (Or.inl ⟨"/seg", 0, ios_in, rfl⟩) (Or.inl ⟨"f.bin", 0, rw, rfl⟩)
  ⟨h.1.2.2, h.2.1⟩

/-- C10, the claim as stated fails: POSIX `open_file()` and `open()` with
write access and a positive size, the OS open returning descriptor 3 and
every later call failing. Both return false, neither has issued a `::close`,
and `hFile` still holds 3. -/
theorem posix_open_failure_keeps_descriptor_counterexample :
    (Posix.open_file file8 os_open_only).result = false ∧
    (Posix.open_file file8 os_open_only).world.trace =
      [Call.sys_open "f.bin" (O_RDWR ||| (O_CREAT ||| O_TRUNC)) S_IRWXU,
       Call.ftruncate 3 8, Call.fstat 3] ∧
    (Posix.open_file file8 os_open_only).self.hFile = 3 ∧
    (Posix.open seg64 os_open_only).result = false ∧
    (Posix.open seg64 os_open_only).world.trace =
      [Call.shm_open "/seg" (O_RDWR ||| (O_CREAT ||| O_TRUNC)) S_IRWXU, Call.ftruncate 3 64] ∧
    (Posix.open seg64 os_open_only).self.hFile = 3 := by
  decide

/-- C10, amended: POSIX `open()` and `open_file()` never release the
descriptor themselves. For every outcome of the OS calls, none of the calls
they issue is a `::close`, and the value that `shm_open` / `::open` returned
is what `hFile` holds afterwards; so when the call returns false after the OS
open had succeeded, the descriptor is still open and held by the Mapping. -/
theorem posix_open_never_closes (self : Posix.MemoryMap) (w : World) :
    (∀ fd, Call.sys_close fd ∉ (Posix.open self w).world.since w) ∧
    (Posix.open self w).self.hFile = (w.replies 0).ret ∧
    (∀ fd, Call.sys_close fd ∉ (Posix.open_file self w).world.since w) ∧
    (Posix.open_file self w).self.hFile = (w.replies 0).ret := by
  cases hr : read_only self.mode <;>
  by_cases h0 : (w.replies 0).ret = -1 <;>
  by_cases hz : self.pSize = 0 <;>
  by_cases h1 : (w.replies 1).ret = -1 <;>
  by_cases hs : (w.replies 1).size = 0 <;>
  by_cases h2 : (w.replies 2).ret = -1 <;>
  simp [Posix.open, Posix.open_file, World.call, World.since, hr, h0, hz, h1, hs, h2,
    Nat.pos_iff_ne_zero]

end MemoryMap
